import Mathlib

/-!
Shallow embedding of the authentication, authorization and throttling core of
the `product-management` Go service (repository `soa-testing`).

Conventions of the embedding:
* machine integers (`uint`, Unix timestamps) are `Nat`;
* Go maps with zero-valued reads become total functions with explicit update;
* the HMAC signature is idealized as a collision-free tag: a signature is the
  record of the algorithm, key and signed claims, and verification compares
  records.  This is the standard ideal-MAC model; forging a tag for a
  different key is impossible in the model, matching the security assumption
  the code relies on;
* fallible Go functions return `Except`/`Option`.
-/

/-- Role, from `internal/models/user.go`: a closed two-value enumeration.
`RoleAdmin = "admin"`, `RoleUser = "user"`. -/
inductive Role
  | admin
  | user
deriving DecidableEq, Repr

/-- The string stored in a token's `role` claim for each role. -/
def Role.toStr : Role → String
  | .admin => "admin"
  | .user => "user"

/-- JSON values appearing in JWT claims.  `user_id` and `exp` decode to Go
`float64`; the values this system stores there are unsigned integers, so we
model them as `Nat`. -/
inductive JSONValue
  | num (n : Nat)
  | str (s : String)
deriving DecidableEq, Repr

/-- Model of `jwt.MapClaims`, modelled as an association list. -/
abbrev Claims := List (String × JSONValue)

/-- Lookup of a claim by key (first match). -/
def lookupClaim (cs : Claims) (k : String) : Option JSONValue :=
  match cs with
  | [] => none
  | (k', v) :: rest => if k' = k then some v else lookupClaim rest k

/-- Model of `claims["k"].(float64)`: succeeds only when the claim is present and is a
number. -/
def claimNum (cs : Claims) (k : String) : Option Nat :=
  match lookupClaim cs k with
  | some (.num n) => some n
  | _ => none

/-- Model of `claims["k"].(string)`: succeeds only when the claim is present and is a
string. -/
def claimStr (cs : Claims) (k : String) : Option String :=
  match lookupClaim cs k with
  | some (.str s) => some s
  | _ => none

/-- Signing algorithm of a token's header.  `HS256` is the HMAC scheme the
code issues; `RS256` stands for any non-HMAC method (the middleware keyfuncs
only test membership in `jwt.SigningMethodHMAC`). -/
inductive SigAlg
  | HS256
  | RS256
deriving DecidableEq, Repr

/-- Whether the method is `*jwt.SigningMethodHMAC`. -/
def SigAlg.isHMAC : SigAlg → Bool
  | .HS256 => true
  | .RS256 => false

/-- Idealized HMAC tag: algorithm, key and signed payload. -/
structure Sig where
  alg : SigAlg
  key : String
  body : Claims
deriving DecidableEq, Repr

/-- A serialized JWT `header.claims.signature`.  The `sig` field need not
match `alg`/`claims` (a tampered or cross-signed token), which is exactly
what verification detects. -/
structure SignedToken where
  alg : SigAlg
  claims : Claims
  sig : Sig
deriving DecidableEq, Repr

/-- Model of `jwt.NewWithClaims(method, claims).SignedString(key)`: an honestly signed
token. -/
def signToken (alg : SigAlg) (key : String) (claims : Claims) : SignedToken :=
  { alg := alg, claims := claims, sig := { alg := alg, key := key, body := claims } }

/-- Error kinds of `jwt.Parse`. -/
inductive JWTError
  | badMethod
  | signatureInvalid
  | expired
deriving DecidableEq, Repr

/-- Model of `jwt.Parse(tokenString, keyfunc)` with a keyfunc that rejects non-HMAC
methods and otherwise returns `secret`: the method is checked, the signature
is verified against `secret`, and the registered `exp` claim (when present)
is validated against the current time.  A token is expired when its expiry
is strictly before `now`. -/
def jwtParse (secret : String) (now : Nat) (tok : SignedToken) : Except JWTError Claims :=
  if tok.alg.isHMAC = false then .error .badMethod
  else if tok.sig = ({ alg := tok.alg, key := secret, body := tok.claims } : Sig) then
    match claimNum tok.claims "exp" with
    | some e => if e < now then .error .expired else .ok tok.claims
    | none => .ok tok.claims
  else .error .signatureInvalid

/-- The process environment: `os.Getenv` returns the empty string for unset
variables, modelled as an optional lookup. -/
abbrev Env := String → Option String

/-- Model of `getEnv` from `config/config.go`: environment variable or default (an
empty or unset variable yields the default). -/
def getEnv (env : Env) (key defaultValue : String) : String :=
  match env key with
  | none => defaultValue
  | some v => if v = "" then defaultValue else v

/-- Modelled from the spec: `utils.GetEnv` from `product-management/pkg/utils`
is referenced by the auth service but its file is not under `src/`.  Per §6
the configuration collaborator supplies secrets from the environment with
defaults; modelled identically to `getEnv` from `src/config/config.go`,
which implements the same lookup-with-default. -/
def GetEnv (env : Env) (key defaultValue : String) : String :=
  getEnv env key defaultValue

/-- Model of `Config` from `config/config.go`. -/
structure Config where
  dbHost : String
  dbPort : Nat
  dbUser : String
  dbPassword : String
  dbName : String
  jwtSecret : String
  jwtRefreshSecret : String
deriving DecidableEq, Repr

/-- One decimal digit, or `none`. -/
def digitToNat (c : Char) : Option Nat :=
  if c < '0' ∨ '9' < c then none else some (c.toNat - '0'.toNat)

/-- Accumulating decimal parser over the characters of a string. -/
def parseDigits : List Char → Nat → Option Nat
  | [], acc => some acc
  | c :: cs, acc =>
    match digitToNat c with
    | none => none
    | some d => parseDigits cs (acc * 10 + d)

/-- Model of `strconv.Atoi` restricted to the non-negative decimals the configuration
uses (ports); a sign or any non-digit fails. -/
def atoi (s : String) : Option Nat :=
  match s.data with
  | [] => none
  | l => parseDigits l 0

/-- Model of `LoadConfig` from `config/config.go`: fails only when `DB_PORT` does not
parse as an integer (`strconv.Atoi`, modelled by `atoi`). -/
def LoadConfig (env : Env) : Option Config :=
  match atoi (getEnv env "DB_PORT" "5432") with
  | none => none
  | some p =>
    some { dbHost := getEnv env "DB_HOST" "localhost"
           dbPort := p
           dbUser := getEnv env "DB_USER" "postgres"
           dbPassword := getEnv env "DB_PASSWORD" "postgres"
           dbName := getEnv env "DB_NAME" "product_management"
           jwtSecret := getEnv env "JWT_SECRET" "01964c7b_9461_735b_82af_c02f626b7066"
           jwtRefreshSecret := getEnv env "JWT_REFRESH_SECRET" "01964c7b_9461_735b_82af_c02f626b7066SASS" }

/-- The request-scoped identity the middleware stores in the gin context
(`userID`, `email`, `role`). -/
structure IdentityCtx where
  userID : Nat
  email : String
  role : String
deriving DecidableEq, Repr

/-- The shape of an `Authorization` header that is present: either it is not
of the two-part `Bearer <token>` form, or it carries a token. -/
inductive BearerForm
  | malformed
  | wellFormed (tok : SignedToken)
deriving DecidableEq, Repr

/-- Outcome of a middleware: abort with a JSON error, or call `c.Next()` with
an identity stored in the context. -/
inductive MWOutcome
  | reject (status : Nat) (error : String)
  | proceed (ctx : IdentityCtx)
deriving DecidableEq, Repr

/-- Model of `AuthMiddleware` from `internal/middleware/auth.go`, after the config
load (which, per `LoadConfig`, succeeds whenever `DB_PORT` parses; a failure
would give 500).  The `token.Claims.(jwt.MapClaims)` assertion always
succeeds for tokens produced by `jwt.Parse`, so that abort branch
(`"invalid token claims"`) is unreachable and is not modelled. -/
def AuthMiddleware (cfg : Config) (now : Nat) (hdr : Option BearerForm) : MWOutcome :=
  match hdr with
  | none => .reject 401 "authorization header is required"
  | some .malformed => .reject 401 "invalid authorization header format"
  | some (.wellFormed tok) =>
    match jwtParse cfg.jwtSecret now tok with
    | .error _ => .reject 401 "invalid or expired token"
    | .ok cs =>
      match claimNum cs "user_id", claimStr cs "email", claimStr cs "role" with
      | some uid, some email, some role => .proceed { userID := uid, email := email, role := role }
      | _, _, _ => .reject 401 "missing or invalid claim fields"

/-- Model of `models.User` (fields relevant to the core; `LastLogin`, timestamps and
the review association are omitted as they play no role in the claims). -/
structure User where
  id : Nat
  username : String
  email : String
  fullName : String
  password : String
  role : Role
deriving DecidableEq, Repr

/-- The claims `generateAccessToken` embeds: user id, email, role and
`exp = now + 24h` (Unix seconds). -/
def accessTokenClaims (now : Nat) (u : User) : Claims :=
  [("user_id", .num u.id), ("email", .str u.email), ("role", .str u.role.toStr),
   ("exp", .num (now + 24 * 3600))]

/-- Model of `AuthService.generateAccessToken`: HS256 over the access secret
(`JWT_SECRET`, default `"your-secret-key"`). -/
def generateAccessToken (env : Env) (now : Nat) (u : User) : SignedToken :=
  signToken .HS256 (GetEnv env "JWT_SECRET" "your-secret-key") (accessTokenClaims now u)

/-- The claims `generateRefreshToken` embeds: user id and `exp = now + 7d`. -/
def refreshTokenClaims (now : Nat) (u : User) : Claims :=
  [("user_id", .num u.id), ("exp", .num (now + 7 * 24 * 3600))]

/-- Model of `AuthService.generateRefreshToken`: HS256 over the refresh secret
(`JWT_REFRESH_SECRET`, default `"your-refresh-secret-key"`). -/
def generateRefreshToken (env : Env) (now : Nat) (u : User) : SignedToken :=
  signToken .HS256 (GetEnv env "JWT_REFRESH_SECRET" "your-refresh-secret-key") (refreshTokenClaims now u)

/-- Model of `AuthService.ValidateToken`: parse against the access secret. -/
def ValidateToken (env : Env) (now : Nat) (tok : SignedToken) : Except JWTError Claims :=
  jwtParse (GetEnv env "JWT_SECRET" "your-secret-key") now tok

/-- Model of `AuthService.ValidateRefreshToken`: parse against the refresh secret. -/
def ValidateRefreshToken (env : Env) (now : Nat) (tok : SignedToken) : Except JWTError Claims :=
  jwtParse (GetEnv env "JWT_REFRESH_SECRET" "your-refresh-secret-key") now tok

/-- An environment with no variables set (every default applies). -/
def envEmpty : Env := fun _ => none

/-- The configuration `LoadConfig` produces in the default environment. -/
def cfgDefault : Config :=
  { dbHost := "localhost"
    dbPort := 5432
    dbUser := "postgres"
    dbPassword := "postgres"
    dbName := "product_management"
    jwtSecret := "01964c7b_9461_735b_82af_c02f626b7066"
    jwtRefreshSecret := "01964c7b_9461_735b_82af_c02f626b7066SASS" }

example : LoadConfig envEmpty = some cfgDefault := by rfl

/-- The user table, as the repository sees it (`UserRepository` over GORM).
Soft deletion makes a row invisible to every query in the repository, so the
observable store is the list of live users. -/
abbrev UserStore := List User

/-- Model of `UserRepository.GetByID` / `db.First(&user, id)`: the first live row with
this id, or record-not-found. -/
def findUser (store : UserStore) (id : Nat) : Option User :=
  match store with
  | [] => none
  | u :: rest => if u.id = id then some u else findUser rest id

/-- Model of `UserRepository.UpdateFields(userID, {"role": role})`: update the role of
every row matching the id (ids are unique in practice; the update is by
`WHERE id = ?`). -/
def updateRoleInStore (store : UserStore) (id : Nat) (r : Role) : UserStore :=
  store.map fun u => if u.id = id then { u with role := r } else u

/-- Model of `UserRepository.Delete(id)` / `db.Delete(&models.User{}, id)`: the row
disappears from the live store. -/
def deleteFromStore (store : UserStore) (id : Nat) : UserStore :=
  store.filter fun u => u.id ≠ id

/-- Errors surfaced by the user repository and auth service. -/
inductive SvcError
  | recordNotFound
  | msg (s : String)
deriving DecidableEq, Repr

/-- Model of `AuthService.UpdateUserRole`: look the target up (`GetByID`), then update
only the role field. -/
def AuthServiceUpdateUserRole (store : UserStore) (userID : Nat) (r : Role) :
    Except SvcError UserStore :=
  match findUser store userID with
  | none => .error .recordNotFound
  | some u => .ok (updateRoleInStore store u.id r)

/-- Model of `AuthService.DeleteUser`: look the target up; refuse to delete an admin;
otherwise soft-delete. -/
def AuthServiceDeleteUser (store : UserStore) (userID : Nat) : Except SvcError UserStore :=
  match findUser store userID with
  | none => .error .recordNotFound
  | some u =>
    if u.role = Role.admin then .error (.msg "cannot delete admin user")
    else .ok (deleteFromStore store userID)

/-- An HTTP response the handlers produce: status code and the message or
error string of the JSON body. -/
structure HResp where
  status : Nat
  body : String
deriving DecidableEq, Repr

/-- Model of `RequireRole` from the role middleware: reads the context role set by
`AuthMiddleware` and compares case-insensitively (`strings.EqualFold`,
modelled as equality of lowercasings — exact for the ASCII role names used)
against the allow-list.  Returns the abort response, or `none` to proceed.
The context always holds a string after `AuthMiddleware`, so the
missing-role and wrong-type aborts correspond to `ctxRole = none`. -/
def RequireRole (allowedRoles : List String) (ctxRole : Option String) : Option HResp :=
  match ctxRole with
  | none => some { status := 403, body := "Access denied: missing role" }
  | some r =>
    if allowedRoles.any (fun a => r.toLower = a.toLower) then none
    else some { status := 403, body := "Access denied: insufficient permissions" }

/-- Model of `AuthHandler.UpdateUserRole` (`internal/handlers/auth_handler.go`):
parse the path id, re-fetch the acting user from the store
(`GetCurrentUser`), deny unless the freshly fetched role is admin, bind the
request body (`none` = binding failure; binding validates
`oneof=user admin`), then update through the service.  Returns the response
and the store after the request. -/
def AuthHandlerUpdateUserRole (store : UserStore) (ctx : IdentityCtx)
    (pathID : Option Nat) (req : Option Role) : HResp × UserStore :=
  match pathID with
  | none => ({ status := 400, body := "invalid user ID" }, store)
  | some targetID =>
    match findUser store ctx.userID with
    | none => ({ status := 500, body := "record not found" }, store)
    | some currentUser =>
      if currentUser.role ≠ Role.admin then
        ({ status := 403, body := "only admin can update user roles" }, store)
      else
        match req with
        | none => ({ status := 400, body := "invalid request body" }, store)
        | some r =>
          match AuthServiceUpdateUserRole store targetID r with
          | .error .recordNotFound => ({ status := 404, body := "user not found" }, store)
          | .error (.msg m) => ({ status := 500, body := m }, store)
          | .ok store' => ({ status := 200, body := "user role updated successfully" }, store')

/-- Model of `AuthHandler.DeleteUser`: parse the path id, re-fetch the acting user,
deny unless the fresh role is admin, then delete through the service; the
service's admin-protection error surfaces as 403. -/
def AuthHandlerDeleteUser (store : UserStore) (ctx : IdentityCtx)
    (pathID : Option Nat) : HResp × UserStore :=
  match pathID with
  | none => ({ status := 400, body := "invalid user ID" }, store)
  | some targetID =>
    match findUser store ctx.userID with
    | none => ({ status := 500, body := "record not found" }, store)
    | some currentUser =>
      if currentUser.role ≠ Role.admin then
        ({ status := 403, body := "only admin can delete users" }, store)
      else
        match AuthServiceDeleteUser store targetID with
        | .error .recordNotFound => ({ status := 404, body := "user not found" }, store)
        | .error (.msg m) =>
          if m = "cannot delete admin user" then ({ status := 403, body := m }, store)
          else ({ status := 500, body := m }, store)
        | .ok store' => ({ status := 200, body := "user deleted successfully" }, store')

/-- The `PUT /auth/users/:id/role` route chain after `AuthMiddleware`:
`RequireRole("admin")` on the token-embedded role, then the handler. -/
def updateUserRoleEndpoint (store : UserStore) (ctx : IdentityCtx)
    (pathID : Option Nat) (req : Option Role) : HResp × UserStore :=
  match RequireRole ["admin"] (some ctx.role) with
  | some resp => (resp, store)
  | none => AuthHandlerUpdateUserRole store ctx pathID req

/-- The `DELETE /auth/users/:id` route chain after `AuthMiddleware`. -/
def deleteUserEndpoint (store : UserStore) (ctx : IdentityCtx)
    (pathID : Option Nat) : HResp × UserStore :=
  match RequireRole ["admin"] (some ctx.role) with
  | some resp => (resp, store)
  | none => AuthHandlerDeleteUser store ctx pathID

/-- Leading-whitespace stripper over the characters of a string (ASCII
whitespace, which covers every character these requests can contain). -/
def dropLeadingWs : List Char → List Char
  | [] => []
  | c :: cs =>
    if c = ' ' ∨ c = '\t' ∨ c = '\n' ∨ c = '\r' then dropLeadingWs cs else c :: cs

/-- Model of `strings.TrimSpace`: strip whitespace from both ends (modelled
structurally so that concrete values compute). -/
def trimSpace (s : String) : String :=
  { data := (dropLeadingWs (dropLeadingWs s.data.reverse).reverse) }

/-- Model of `dto.RegisterRequest` after `ShouldBindJSON` succeeded. -/
structure RegisterRequest where
  username : String
  email : String
  fullName : String
  password : String
  confirmPassword : String
  role : String
deriving DecidableEq, Repr

/-- Model of `UserRepository.Create`: reject duplicate username, then duplicate
email, then insert.  The password is stored as given (the bcrypt
`BeforeSave` hook does not affect any claim). -/
def userRepoCreate (store : UserStore) (u : User) : Except SvcError UserStore :=
  if store.any (fun v => v.username = u.username) then .error (.msg "username already exists")
  else if store.any (fun v => v.email = u.email) then .error (.msg "email already exists")
  else .ok (store ++ [u])

/-- The tail of `AuthHandler.Register` once a role has been chosen: build
the user (the database assigns `nextId`) and create it, mapping duplicate
errors to 409 and other creation failures to 500. -/
def registerCreate (store : UserStore) (nextId : Nat) (req : RegisterRequest)
    (userRole : Role) : HResp × UserStore :=
  let u : User :=
    { id := nextId, username := trimSpace req.username, email := trimSpace req.email,
      fullName := trimSpace req.fullName, password := req.password, role := userRole }
  match userRepoCreate store u with
  | .error (.msg m) =>
    if m = "username already exists" then ({ status := 409, body := m }, store)
    else if m = "email already exists" then ({ status := 409, body := m }, store)
    else ({ status := 500, body := "failed to create user" }, store)
  | .error .recordNotFound => ({ status := 500, body := "failed to create user" }, store)
  | .ok store' => ({ status := 201, body := "user registered successfully" }, store')

/-- Model of `AuthHandler.Register` (`internal/handlers/auth_handler.go`, lines
43-120), for a request that passed JSON binding: password confirmation,
trimmed-emptiness validation, role dispatch (default `user`; explicit
`admin` is forbidden with 403; anything else invalid with 400), then
creation. -/
def Register (store : UserStore) (nextId : Nat) (req : RegisterRequest) : HResp × UserStore :=
  if req.password ≠ req.confirmPassword then
    ({ status := 400, body := "passwords do not match" }, store)
  else if trimSpace req.username = "" ∨ trimSpace req.email = "" ∨ trimSpace req.fullName = "" then
    ({ status := 400, body := "username, email and full name cannot be empty" }, store)
  else if req.role = "" then registerCreate store nextId req Role.user
  else if req.role = "user" then registerCreate store nextId req Role.user
  else if req.role = "admin" then
    ({ status := 403, body := "unauthorized to create admin account" }, store)
  else ({ status := 400, body := "invalid role" }, store)

/-- The shared state of `RateLimitMiddleware`: the two maps captured by the
closure.  A Go map read of a missing key yields the zero value, so
`requests` is total with default `0`; `lastReset` existence is observable
(`exists` check), so it stays optional.  Times are Unix-epoch
`time.Duration` ticks in seconds. -/
structure RLState where
  requests : String → Nat
  lastReset : String → Option Nat

/-- Point update of a map. -/
def upd {α : Type} (f : String → α) (k : String) (v : α) : String → α :=
  fun k' => if k' = k then v else f k'

/-- The state with no entries (fresh closure). -/
def rlInit : RLState := { requests := fun _ => 0, lastReset := fun _ => none }

/-- One sequential execution of the `RateLimitMiddleware` handler body
(`internal/middleware`, RateLimitMiddleware) for a request from `ip` at time
`now`: reset the counter when the window has passed (`now - lastReset >
window`, with `time.Sub` truncated at zero for a clock that never runs
backwards within a window), create the entry timestamp on first sight,
reject without incrementing once `count ≥ limit`, otherwise increment and
admit.  Returns whether the request was admitted. -/
def rateLimitStep (limit window : Nat) (st : RLState) (ip : String) (now : Nat) :
    Bool × RLState :=
  let st1 : RLState :=
    match st.lastReset ip with
    | some t =>
      if now - t > window then
        { requests := upd st.requests ip 0, lastReset := upd st.lastReset ip (some now) }
      else st
    | none => { requests := st.requests, lastReset := upd st.lastReset ip (some now) }
  if st1.requests ip ≥ limit then (false, st1)
  else (true, { requests := upd st1.requests ip (st1.requests ip + 1), lastReset := st1.lastReset })

/-- The HTTP outcome of one rate-limited request: 429 with
`"Rate limit exceeded"` on rejection, pass-through on admission. -/
def rateLimitOutcome (limit window : Nat) (st : RLState) (ip : String) (now : Nat) :
    Option HResp :=
  if (rateLimitStep limit window st ip now).1 then none
  else some { status := 429, body := "Rate limit exceeded" }

/-- A sequential run of requests from one client: the list of admission
decisions and the final state. -/
def rateLimitRun (limit window : Nat) (st : RLState) (ip : String) :
    List Nat → List Bool × RLState
  | [] => ([], st)
  | t :: ts =>
    let p := rateLimitStep limit window st ip t
    let q := rateLimitRun limit window p.2 ip ts
    (p.1 :: q.1, q.2)

/-- Program counter of one in-flight request inside `RateLimitMiddleware`.
The handler body performs three separate, unsynchronized accesses to the
shared maps — the window-reset block, the `requests[ip] >= limit` read, and
the `requests[ip]++` read-modify-write — and the code takes no lock, so
steps of concurrent requests interleave at these boundaries. -/
inductive RLPhase
  | start
  | check
  | inc
  | finished (admitted : Bool)
deriving DecidableEq, Repr

/-- One micro-step of a request at phase `p` over the shared state: exactly
the corresponding fragment of the `RateLimitMiddleware` body. -/
def rateLimitMicro (limit window : Nat) (ip : String) (now : Nat) :
    RLPhase × RLState → RLPhase × RLState
  | (.start, st) =>
    match st.lastReset ip with
    | some t =>
      if now - t > window then
        (.check, { requests := upd st.requests ip 0, lastReset := upd st.lastReset ip (some now) })
      else (.check, st)
    | none => (.check, { requests := st.requests, lastReset := upd st.lastReset ip (some now) })
  | (.check, st) =>
    if st.requests ip ≥ limit then (.finished false, st) else (.inc, st)
  | (.inc, st) =>
    (.finished true, { requests := upd st.requests ip (st.requests ip + 1), lastReset := st.lastReset })
  | (.finished b, st) => (.finished b, st)

/-- Interleaved execution of two concurrent requests from the same client at
the same instant, under a schedule naming which request takes the next
micro-step. -/
def racyRun (limit window : Nat) (ip : String) (now : Nat) :
    List Bool → (RLPhase × RLPhase) × RLState → (RLPhase × RLPhase) × RLState
  | [], s => s
  | thread :: rest, ((p1, p2), st) =>
    if thread then
      let r := rateLimitMicro limit window ip now (p1, st)
      racyRun limit window ip now rest ((r.1, p2), r.2)
    else
      let r := rateLimitMicro limit window ip now (p2, st)
      racyRun limit window ip now rest ((p1, r.1), r.2)

/-- Any parse failure makes `AuthMiddleware` answer the generic 401. -/
theorem authMiddleware_parse_error (cfg : Config) (now : Nat) (tok : SignedToken)
    (err : JWTError) (h : jwtParse cfg.jwtSecret now tok = .error err) :
    AuthMiddleware cfg now (some (.wellFormed tok)) = .reject 401 "invalid or expired token" := by
  simp only [AuthMiddleware, h]

/-- A token whose `exp` claim is strictly in the past never parses,
whatever its signature and method. -/
theorem jwtParse_expired (secret : String) (now : Nat) (tok : SignedToken) (e : Nat)
    (hexp : claimNum tok.claims "exp" = some e) (hlt : e < now) :
    ∃ err, jwtParse secret now tok = .error err := by
  unfold jwtParse
  split
  · exact ⟨.badMethod, rfl⟩
  · split
    · rw [hexp]
      exact ⟨.expired, by simp [hlt]⟩
    · exact ⟨.signatureInvalid, rfl⟩

/-- Claim C2: for every token whose claims encode an expiry strictly before
the current time, the authentication middleware rejects the request with
HTTP 401 and the generic message, regardless of whether the signature is
valid under the configured secret. -/
theorem C2_expired_token_rejected (cfg : Config) (now : Nat) (tok : SignedToken) (e : Nat)
    (hexp : claimNum tok.claims "exp" = some e) (hlt : e < now) :
    AuthMiddleware cfg now (some (.wellFormed tok)) = .reject 401 "invalid or expired token" := by
  obtain ⟨err, h⟩ := jwtParse_expired cfg.jwtSecret now tok e hexp hlt
  exact authMiddleware_parse_error cfg now tok err h

/-- A token signed with the default access secret but already expired. -/
def tokExpiredValidSig : SignedToken :=
  signToken .HS256 "01964c7b_9461_735b_82af_c02f626b7066" [("exp", JSONValue.num 5)]

/-- Witness for C2: a token with a valid signature under the default config
secret and `exp = 5` is rejected at `now = 10` with the generic 401. -/
theorem C2_expired_token_rejected_witness :
    AuthMiddleware cfgDefault 10 (some (.wellFormed tokExpiredValidSig)) =
      .reject 401 "invalid or expired token" :=
  C2_expired_token_rejected cfgDefault 10 tokExpiredValidSig 5 (by rfl) (by decide)

/-- An honestly signed HMAC token fails parsing against a different key with
an invalid-signature error. -/
theorem jwtParse_wrong_key (keySign keyCheck : String) (cs : Claims) (now : Nat)
    (hne : keySign ≠ keyCheck) :
    jwtParse keyCheck now (signToken .HS256 keySign cs) = .error .signatureInvalid := by
  unfold jwtParse signToken
  simp only [SigAlg.isHMAC, Bool.true_eq_false, if_false, Sig.mk.injEq]
  rw [if_neg]
  intro hcon
  exact hne hcon.2.1

/-- Claim C3: when the access and refresh secrets differ, a refresh token
never passes `ValidateToken` (the access-secret check) and an access token
never passes `ValidateRefreshToken` (the refresh-secret check): both fail
with an invalid signature, for every user and every issuance/verification
time. -/
theorem C3_cross_kind_rejection (env : Env) (nowIssue nowCheck : Nat) (u : User)
    (hsec : GetEnv env "JWT_SECRET" "your-secret-key" ≠
      GetEnv env "JWT_REFRESH_SECRET" "your-refresh-secret-key") :
    ValidateToken env nowCheck (generateRefreshToken env nowIssue u) =
      .error .signatureInvalid ∧
    ValidateRefreshToken env nowCheck (generateAccessToken env nowIssue u) =
      .error .signatureInvalid := by
  constructor
  · exact jwtParse_wrong_key _ _ _ nowCheck (fun h => hsec h.symm)
  · exact jwtParse_wrong_key _ _ _ nowCheck hsec

/-- Witness for C3: in the default environment the two secrets differ, and a
refresh token for a concrete user is rejected by the access-secret check
(and the access token by the refresh-secret check). -/
theorem C3_cross_kind_rejection_witness :
    ValidateToken envEmpty 0
        (generateRefreshToken envEmpty 0
          { id := 1, username := "john", email := "john@example.com",
            fullName := "John Doe", password := "pw", role := Role.user }) =
      .error .signatureInvalid ∧
    ValidateRefreshToken envEmpty 0
        (generateAccessToken envEmpty 0
          { id := 1, username := "john", email := "john@example.com",
            fullName := "John Doe", password := "pw", role := Role.user }) =
      .error .signatureInvalid :=
  C3_cross_kind_rejection envEmpty 0 0
    { id := 1, username := "john", email := "john@example.com",
      fullName := "John Doe", password := "pw", role := Role.user } (by decide)

/-- A token correctly signed with the default config secret, carrying no
`role` claim (and no `exp`, so it is not expired). -/
def tokMissingRole : SignedToken :=
  signToken .HS256 "01964c7b_9461_735b_82af_c02f626b7066"
    [("user_id", JSONValue.num 1), ("email", JSONValue.str "jane@example.com")]

/-- Counterexample to C6: a token that passes signature and expiry
verification but lacks the `role` claim is rejected with the distinct
message `"missing or invalid claim fields"`, not the single generic
`"invalid or expired token"` the claim asserts for all three failure
kinds — so the body does reveal that the claim-field check (not signature
or expiry) failed. -/
theorem C6_counterexample_missing_claims_message :
    jwtParse cfgDefault.jwtSecret 0 tokMissingRole = .ok tokMissingRole.claims ∧
    AuthMiddleware cfgDefault 0 (some (.wellFormed tokMissingRole)) =
      .reject 401 "missing or invalid claim fields" ∧
    "missing or invalid claim fields" ≠ "invalid or expired token" :=
  ⟨by rfl, by rfl, by decide⟩

/-- Amended C6: every token-verification failure in the middleware
yields HTTP 401, and invalid-signature, non-HMAC-method and expiry failures
all collapse to the one generic message `"invalid or expired token"`; but a
token that passes parsing and lacks a required claim field (or has it at
the wrong type) is rejected with the distinct message
`"missing or invalid claim fields"`. -/
theorem C6_amended_401_messages (cfg : Config) (now : Nat) (tok : SignedToken) :
    (∀ err, jwtParse cfg.jwtSecret now tok = .error err →
      AuthMiddleware cfg now (some (.wellFormed tok)) =
        .reject 401 "invalid or expired token") ∧
    (∀ cs, jwtParse cfg.jwtSecret now tok = .ok cs →
      (claimNum cs "user_id" = none ∨ claimStr cs "email" = none ∨
        claimStr cs "role" = none) →
      AuthMiddleware cfg now (some (.wellFormed tok)) =
        .reject 401 "missing or invalid claim fields") := by
  constructor
  · intro err h
    simp only [AuthMiddleware, h]
  · intro cs h hmiss
    simp only [AuthMiddleware, h]
    cases hu : claimNum cs "user_id" <;> cases he : claimStr cs "email" <;>
      cases hr : claimStr cs "role" <;> simp_all

/-- Witness for the amended C6: the expired-but-well-signed token gets the
generic message, the claims-deficient token the distinct one. -/
theorem C6_amended_401_messages_witness :
    AuthMiddleware cfgDefault 10 (some (.wellFormed tokExpiredValidSig)) =
      .reject 401 "invalid or expired token" ∧
    AuthMiddleware cfgDefault 0 (some (.wellFormed tokMissingRole)) =
      .reject 401 "missing or invalid claim fields" :=
  ⟨(C6_amended_401_messages cfgDefault 10 tokExpiredValidSig).1 .expired (by rfl),
   (C6_amended_401_messages cfgDefault 0 tokMissingRole).2 tokMissingRole.claims (by rfl)
     (Or.inr (Or.inr (by rfl)))⟩

/-- A concrete user for the default-configuration round-trip. -/
def johnUser : User :=
  { id := 1, username := "john", email := "john@example.com",
    fullName := "John Doe", password := "pw", role := Role.user }

/-- Claim C8 fails on the code: in the default environment (no variables set),
`LoadConfig` resolves the middleware's verification secret to
`"01964c7b_9461_735b_82af_c02f626b7066"` while `generateAccessToken` signs
with `GetEnv("JWT_SECRET", "your-secret-key") = "your-secret-key"`; the two
defaults differ, so a token issued at login and presented immediately
(well before its 24h expiry) is rejected with 401 instead of being
accepted. -/
theorem C8_default_roundtrip_fails :
    LoadConfig envEmpty = some cfgDefault ∧
    GetEnv envEmpty "JWT_SECRET" "your-secret-key" ≠ cfgDefault.jwtSecret ∧
    AuthMiddleware cfgDefault 0
        (some (.wellFormed (generateAccessToken envEmpty 0 johnUser))) =
      .reject 401 "invalid or expired token" :=
  ⟨by rfl, by decide, by rfl⟩

/-- Whenever `RequireRole` aborts, it does so with status 403. -/
theorem requireRole_deny_403 (roles : List String) (r : Option String) (resp : HResp)
    (h : RequireRole roles r = some resp) : resp.status = 403 := by
  cases r with
  | none =>
    unfold RequireRole at h
    simp only [Option.some.injEq] at h
    rw [← h]
  | some s =>
    simp only [RequireRole] at h
    split at h
    · cases h
    · simp only [Option.some.injEq] at h
      rw [← h]

/-- The role-update handler denies with 403 and leaves the store untouched
when the acting user's freshly fetched role is not admin. -/
theorem updateUserRoleHandler_fresh_deny (store : UserStore) (ctx : IdentityCtx)
    (targetID : Nat) (req : Option Role) (cur : User)
    (hfetch : findUser store ctx.userID = some cur) (hrole : cur.role ≠ Role.admin) :
    AuthHandlerUpdateUserRole store ctx (some targetID) req =
      ({ status := 403, body := "only admin can update user roles" }, store) := by
  simp only [AuthHandlerUpdateUserRole, hfetch]
  rw [if_pos hrole]

/-- The user-delete handler denies with 403 and leaves the store untouched
when the acting user's freshly fetched role is not admin. -/
theorem deleteUserHandler_fresh_deny (store : UserStore) (ctx : IdentityCtx)
    (targetID : Nat) (cur : User)
    (hfetch : findUser store ctx.userID = some cur) (hrole : cur.role ≠ Role.admin) :
    AuthHandlerDeleteUser store ctx (some targetID) =
      ({ status := 403, body := "only admin can delete users" }, store) := by
  simp only [AuthHandlerDeleteUser, hfetch]
  rw [if_pos hrole]

/-- Claim C1: on both the role-update and the user-delete endpoint, the
acting user's role is re-fetched from the store at handling time; whenever
that fresh role is not admin the request is answered with HTTP 403 and the
store is unchanged — for every token-embedded role, including `"admin"`. -/
theorem C1_fresh_role_checked (store : UserStore) (ctx : IdentityCtx) (targetID : Nat)
    (req : Option Role) (cur : User)
    (hfetch : findUser store ctx.userID = some cur) (hrole : cur.role ≠ Role.admin) :
    ((updateUserRoleEndpoint store ctx (some targetID) req).1.status = 403 ∧
      (updateUserRoleEndpoint store ctx (some targetID) req).2 = store) ∧
    ((deleteUserEndpoint store ctx (some targetID)).1.status = 403 ∧
      (deleteUserEndpoint store ctx (some targetID)).2 = store) := by
  constructor
  · unfold updateUserRoleEndpoint
    cases hrr : RequireRole ["admin"] (some ctx.role) with
    | some resp => exact ⟨requireRole_deny_403 _ _ resp hrr, rfl⟩
    | none =>
      rw [updateUserRoleHandler_fresh_deny store ctx targetID req cur hfetch hrole]
      exact ⟨rfl, rfl⟩
  · unfold deleteUserEndpoint
    cases hrr : RequireRole ["admin"] (some ctx.role) with
    | some resp => exact ⟨requireRole_deny_403 _ _ resp hrr, rfl⟩
    | none =>
      rw [deleteUserHandler_fresh_deny store ctx targetID cur hfetch hrole]
      exact ⟨rfl, rfl⟩

/-- A store holding one demoted user: the authoritative role is `user`. -/
def storeDemoted : UserStore :=
  [{ id := 7, username := "bob", email := "bob@example.com",
     fullName := "Bob", password := "pw", role := Role.user }]

/-- Witness for C1: the stale token still embeds role `"admin"`, yet both
endpoints deny with 403 and leave the store unchanged because the store now
says `user`. -/
theorem C1_fresh_role_checked_witness :
    ((updateUserRoleEndpoint storeDemoted
        { userID := 7, email := "bob@example.com", role := "admin" }
        (some 7) (some Role.admin)).1.status = 403 ∧
      (updateUserRoleEndpoint storeDemoted
        { userID := 7, email := "bob@example.com", role := "admin" }
        (some 7) (some Role.admin)).2 = storeDemoted) ∧
    ((deleteUserEndpoint storeDemoted
        { userID := 7, email := "bob@example.com", role := "admin" } (some 7)).1.status = 403 ∧
      (deleteUserEndpoint storeDemoted
        { userID := 7, email := "bob@example.com", role := "admin" } (some 7)).2 = storeDemoted) :=
  C1_fresh_role_checked storeDemoted
    { userID := 7, email := "bob@example.com", role := "admin" } 7 (some Role.admin)
    { id := 7, username := "bob", email := "bob@example.com",
      fullName := "Bob", password := "pw", role := Role.user } (by rfl) (by decide)

/-- Claim C10: `AuthService.DeleteUser` never deletes an admin — an admin
target yields the error `"cannot delete admin user"` (which the handler
surfaces as HTTP 403 with the store unchanged), and a successful delete
happens only when the target exists with role `user`, in which case exactly
that row is removed. -/
theorem C10_admin_never_deleted (store : UserStore) (targetID : Nat) :
    (∀ u, findUser store targetID = some u → u.role = Role.admin →
      AuthServiceDeleteUser store targetID = .error (.msg "cannot delete admin user")) ∧
    (∀ store', AuthServiceDeleteUser store targetID = .ok store' →
      ∃ u, findUser store targetID = some u ∧ u.role = Role.user ∧
        store' = deleteFromStore store targetID) ∧
    (∀ ctx cur u, findUser store ctx.userID = some cur → cur.role = Role.admin →
      findUser store targetID = some u → u.role = Role.admin →
      AuthHandlerDeleteUser store ctx (some targetID) =
        ({ status := 403, body := "cannot delete admin user" }, store)) := by
  refine ⟨?_, ?_, ?_⟩
  · intro u hu hrole
    simp only [AuthServiceDeleteUser, hu, hrole, if_pos]
  · intro store' hok
    cases hu : findUser store targetID with
    | none => simp only [AuthServiceDeleteUser, hu] at hok; cases hok
    | some u =>
      simp only [AuthServiceDeleteUser, hu] at hok
      by_cases hadm : u.role = Role.admin
      · rw [if_pos hadm] at hok; cases hok
      · rw [if_neg hadm] at hok
        injection hok with h
        refine ⟨u, rfl, ?_, h.symm⟩
        cases hr : u.role with
        | admin => exact absurd hr hadm
        | user => rfl
  · intro ctx cur u hctx hcur hu hrole
    simp [AuthHandlerDeleteUser, hctx, hcur, hu, hrole, AuthServiceDeleteUser]

/-- A store holding one admin. -/
def storeOneAdmin : UserStore :=
  [{ id := 1, username := "root", email := "root@example.com",
     fullName := "Root", password := "pw", role := Role.admin }]

/-- Witness for C10: deleting the admin with id 1 errs in the service and
yields 403 from the handler with the store unchanged; deleting a plain user
succeeds and the success implies the target had role `user`. -/
theorem C10_admin_never_deleted_witness :
    AuthServiceDeleteUser storeOneAdmin 1 = .error (.msg "cannot delete admin user") ∧
    AuthHandlerDeleteUser storeOneAdmin
        { userID := 1, email := "root@example.com", role := "admin" } (some 1) =
      ({ status := 403, body := "cannot delete admin user" }, storeOneAdmin) ∧
    (∃ u, findUser storeDemoted 7 = some u ∧ u.role = Role.user ∧
      deleteFromStore storeDemoted 7 = deleteFromStore storeDemoted 7) :=
  ⟨(C10_admin_never_deleted storeOneAdmin 1).1
      { id := 1, username := "root", email := "root@example.com",
        fullName := "Root", password := "pw", role := Role.admin } (by rfl) (by rfl),
   (C10_admin_never_deleted storeOneAdmin 1).2.2
      { userID := 1, email := "root@example.com", role := "admin" }
      { id := 1, username := "root", email := "root@example.com",
        fullName := "Root", password := "pw", role := Role.admin }
      { id := 1, username := "root", email := "root@example.com",
        fullName := "Root", password := "pw", role := Role.admin }
      (by rfl) (by rfl) (by rfl) (by rfl),
   by
    have h := (C10_admin_never_deleted storeDemoted 7).2.1 (deleteFromStore storeDemoted 7) (by rfl)
    obtain ⟨u, h1, h2, h3⟩ := h
    exact ⟨u, h1, h2, rfl⟩⟩

/-- Model of `registerCreate` either leaves the store alone (on failure) or appends
exactly the new user built from the request with the chosen role. -/
theorem registerCreate_store_shape (store : UserStore) (nextId : Nat)
    (req : RegisterRequest) (r : Role) :
    (registerCreate store nextId req r).2 = store ∨
    (registerCreate store nextId req r).2 =
      store ++ [{ id := nextId, username := trimSpace req.username, email := trimSpace req.email,
                  fullName := trimSpace req.fullName, password := req.password, role := r }] := by
  simp only [registerCreate, userRepoCreate]
  split
  · split
    · exact Or.inl rfl
    · split
      · exact Or.inl rfl
      · exact Or.inl rfl
  · exact Or.inl rfl
  · next h =>
    split at h
    · cases h
    · split at h
      · cases h
      · injection h with h1
        exact Or.inr (by rw [← h1])

/-- With no duplicate username or email, `registerCreate` answers 201 and
appends the new user. -/
theorem registerCreate_ok (store : UserStore) (nextId : Nat) (req : RegisterRequest)
    (r : Role)
    (hdup1 : store.any (fun v => v.username = trimSpace req.username) = false)
    (hdup2 : store.any (fun v => v.email = trimSpace req.email) = false) :
    registerCreate store nextId req r =
      ({ status := 201, body := "user registered successfully" },
       store ++ [{ id := nextId, username := trimSpace req.username, email := trimSpace req.email,
                   fullName := trimSpace req.fullName, password := req.password, role := r }]) := by
  unfold registerCreate userRepoCreate
  simp only [hdup1, hdup2]
  simp

/-- Claim C9: every user the public `Register` endpoint creates has role
`user` — whatever the request, the store is unchanged or extended by one
user with role `user`; and for a request passing the password and
non-emptiness validations, role `"admin"` is rejected with 403 and no user,
any unknown role with 400 and no user, while an empty or `"user"` role
creates (absent duplicates) a user whose role is `user`. -/
theorem C9_register_only_user_role (store : UserStore) (nextId : Nat)
    (req : RegisterRequest) :
    ((Register store nextId req).2 = store ∨
      ∃ u, (Register store nextId req).2 = store ++ [u] ∧ u.role = Role.user) ∧
    (req.password = req.confirmPassword → trimSpace req.username ≠ "" →
      trimSpace req.email ≠ "" → trimSpace req.fullName ≠ "" →
      ((req.role = "admin" →
          Register store nextId req =
            ({ status := 403, body := "unauthorized to create admin account" }, store)) ∧
       (req.role ≠ "" → req.role ≠ "user" → req.role ≠ "admin" →
          Register store nextId req = ({ status := 400, body := "invalid role" }, store)) ∧
       ((req.role = "" ∨ req.role = "user") →
          store.any (fun v => v.username = trimSpace req.username) = false →
          store.any (fun v => v.email = trimSpace req.email) = false →
          Register store nextId req =
            ({ status := 201, body := "user registered successfully" },
             store ++ [{ id := nextId, username := trimSpace req.username,
                         email := trimSpace req.email, fullName := trimSpace req.fullName,
                         password := req.password, role := Role.user }])))) := by
  constructor
  · unfold Register
    split
    · exact Or.inl rfl
    · split
      · exact Or.inl rfl
      · split
        · rcases registerCreate_store_shape store nextId req Role.user with h | h
          · exact Or.inl h
          · exact Or.inr ⟨_, h, rfl⟩
        · split
          · rcases registerCreate_store_shape store nextId req Role.user with h | h
            · exact Or.inl h
            · exact Or.inr ⟨_, h, rfl⟩
          · split
            · exact Or.inl rfl
            · exact Or.inl rfl
  · intro hpw hu he hf
    refine ⟨?_, ?_, ?_⟩
    · intro hrole
      unfold Register
      rw [if_neg (by simp [hpw]), if_neg (by simp [hu, he, hf]),
        if_neg (by simp [hrole]), if_neg (by simp [hrole]), if_pos hrole]
    · intro h1 h2 h3
      unfold Register
      rw [if_neg (by simp [hpw]), if_neg (by simp [hu, he, hf]),
        if_neg h1, if_neg h2, if_neg h3]
    · intro hrole hdup1 hdup2
      unfold Register
      rw [if_neg (by simp [hpw]), if_neg (by simp [hu, he, hf])]
      rcases hrole with h | h
      · rw [if_pos h]
        exact registerCreate_ok store nextId req Role.user hdup1 hdup2
      · rw [if_neg (by simp [h]), if_pos h]
        exact registerCreate_ok store nextId req Role.user hdup1 hdup2

/-- A concrete, otherwise-valid registration request with the given role
field. -/
def reqJohn (roleStr : String) : RegisterRequest :=
  { username := "john", email := "john@example.com", fullName := "John Doe",
    password := "secret1", confirmPassword := "secret1", role := roleStr }

/-- Witness for C9: concrete registration requests exercising the admin
rejection, the invalid-role rejection and the successful default-role
creation on the empty store. -/
theorem C9_register_only_user_role_witness :
    Register [] 1 (reqJohn "admin") =
      ({ status := 403, body := "unauthorized to create admin account" }, []) ∧
    Register [] 1 (reqJohn "superuser") = ({ status := 400, body := "invalid role" }, []) ∧
    Register [] 1 (reqJohn "") =
      ({ status := 201, body := "user registered successfully" },
       [{ id := 1, username := "john", email := "john@example.com",
          fullName := "John Doe", password := "secret1", role := Role.user }]) :=
  ⟨((C9_register_only_user_role [] 1 (reqJohn "admin")).2
      (by rfl) (by decide) (by decide) (by decide)).1 (by rfl),
   ((C9_register_only_user_role [] 1 (reqJohn "superuser")).2
      (by rfl) (by decide) (by decide) (by decide)).2.1 (by decide) (by decide) (by decide),
   ((C9_register_only_user_role [] 1 (reqJohn "")).2
      (by rfl) (by decide) (by decide) (by decide)).2.2 (Or.inl (by rfl)) (by rfl) (by rfl)⟩

/-- Updating a key leaves every other key's value unchanged. -/
theorem upd_ne {α : Type} (f : String → α) (k k' : String) (v : α) (h : k' ≠ k) :
    upd f k v k' = f k' := by
  simp [upd, h]

/-- Reading back the updated key gives the new value. -/
theorem upd_eq {α : Type} (f : String → α) (k : String) (v : α) : upd f k v k = v := by
  simp [upd]

/-- Claim C4: with `limit = 3`, `window = 60`, starting from a fresh
counter, three requests inside the window are admitted, the fourth is
rejected without incrementing the counter (it stays at 3), and the first
request arriving more than the window after the window start is admitted
with the counter restarted at 1. -/
theorem C4_throttle_boundary (ip : String) (t1 t2 t3 t4 t5 : Nat)
    (h12 : t1 ≤ t2) (h23 : t2 ≤ t3) (h34 : t3 ≤ t4)
    (hin : t4 - t1 ≤ 60) (hout : t5 - t1 > 60) :
    (rateLimitRun 3 60 rlInit ip [t1, t2, t3, t4, t5]).1 =
      [true, true, true, false, true] ∧
    (rateLimitRun 3 60 rlInit ip [t1, t2, t3]).2.requests ip = 3 ∧
    (rateLimitRun 3 60 rlInit ip [t1, t2, t3, t4]).2.requests ip = 3 ∧
    (rateLimitRun 3 60 rlInit ip [t1, t2, t3, t4, t5]).2.requests ip = 1 := by
  have h2 : ¬ t2 - t1 > 60 := by omega
  have h3 : ¬ t3 - t1 > 60 := by omega
  have h4 : ¬ t4 - t1 > 60 := by omega
  refine ⟨?_, ?_, ?_, ?_⟩ <;>
    simp [rateLimitRun, rateLimitStep, rlInit, upd, h2, h3, h4, hout]

/-- Witness for C4: concrete request times 0, 10, 20, 30 inside the window
and 100 after it. -/
theorem C4_throttle_boundary_witness :
    (rateLimitRun 3 60 rlInit "203.0.113.7" [0, 10, 20, 30, 100]).1 =
      [true, true, true, false, true] ∧
    (rateLimitRun 3 60 rlInit "203.0.113.7" [0, 10, 20]).2.requests "203.0.113.7" = 3 ∧
    (rateLimitRun 3 60 rlInit "203.0.113.7" [0, 10, 20, 30]).2.requests "203.0.113.7" = 3 ∧
    (rateLimitRun 3 60 rlInit "203.0.113.7" [0, 10, 20, 30, 100]).2.requests "203.0.113.7" = 1 :=
  C4_throttle_boundary "203.0.113.7" 0 10 20 30 100
    (by decide) (by decide) (by decide) (by decide) (by decide)

/-- The per-entry behavior of one rate-limit step: the middleware body as a
function of the single entry it touches. -/
def rateLimitEntryStep (limit window now : Nat) (e : Nat × Option Nat) :
    Bool × (Nat × Option Nat) :=
  let e1 : Nat × Option Nat :=
    match e.2 with
    | some t => if now - t > window then (0, some now) else e
    | none => (e.1, some now)
  if e1.1 ≥ limit then (false, e1)
  else (true, (e1.1 + 1, e1.2))

/-- A step for key `ip` behaves, at `ip`, exactly as the entry-level step on
`ip`'s entry: the decision and the new entry are a function of that entry
alone. -/
theorem rateLimitStep_entry (limit window : Nat) (st : RLState) (ip : String) (now : Nat) :
    ((rateLimitStep limit window st ip now).1,
      ((rateLimitStep limit window st ip now).2.requests ip,
       (rateLimitStep limit window st ip now).2.lastReset ip)) =
    rateLimitEntryStep limit window now (st.requests ip, st.lastReset ip) := by
  cases hlr : st.lastReset ip with
  | none =>
    by_cases hc : st.requests ip >= limit <;>
      simp [rateLimitStep, rateLimitEntryStep, hlr, hc, upd]
  | some t =>
    by_cases hw : now - t > window
    · by_cases h0 : (0 : Nat) >= limit <;>
        simp [rateLimitStep, rateLimitEntryStep, hlr, hw, h0, upd]
    · by_cases hc : st.requests ip >= limit <;>
        simp [rateLimitStep, rateLimitEntryStep, hlr, hw, hc, upd]

/-- Claim C7: a request from one client key neither modifies another key's
counter entry (frame part) nor reads it (the admission decision and the
key's own resulting entry depend only on that key's entry). -/
theorem C7_throttle_isolation (limit window : Nat) (st : RLState) (ip ip2 : String)
    (now : Nat) (hne : ip2 ≠ ip) :
    ((rateLimitStep limit window st ip now).2.requests ip2 = st.requests ip2 ∧
     (rateLimitStep limit window st ip now).2.lastReset ip2 = st.lastReset ip2) ∧
    (∀ st' : RLState, st'.requests ip = st.requests ip →
      st'.lastReset ip = st.lastReset ip →
      (rateLimitStep limit window st' ip now).1 = (rateLimitStep limit window st ip now).1 ∧
      (rateLimitStep limit window st' ip now).2.requests ip =
        (rateLimitStep limit window st ip now).2.requests ip ∧
      (rateLimitStep limit window st' ip now).2.lastReset ip =
        (rateLimitStep limit window st ip now).2.lastReset ip) := by
  constructor
  · cases hlr : st.lastReset ip with
    | none =>
      by_cases hc : st.requests ip >= limit <;>
        simp [rateLimitStep, hlr, hc, upd, hne]
    | some t =>
      by_cases hw : now - t > window
      · by_cases h0 : (0 : Nat) >= limit <;>
          simp [rateLimitStep, hlr, hw, h0, upd, hne]
      · by_cases hc : st.requests ip >= limit <;>
          simp [rateLimitStep, hlr, hw, hc, upd, hne]
  · intro st' h1 h2
    have ha := rateLimitStep_entry limit window st ip now
    have hb := rateLimitStep_entry limit window st' ip now
    rw [h1, h2] at hb
    have hab := hb.trans ha.symm
    simp only [Prod.mk.injEq] at hab
    exact ⟨hab.1, hab.2.1, hab.2.2⟩

/-- Claim C5 fails on the code: `RateLimitMiddleware` protects its two maps with
no lock, so the read of `requests[ip]` in the limit check and the
read-modify-write `requests[ip]++` of concurrent requests interleave.  With
`limit = 1` and two simultaneous requests from one client inside a single
window, the schedule that runs both limit checks before either increment
admits both requests — 2 admissions where the claim allows at most 1 (and
in Go, the unsynchronized concurrent map writes are themselves a fatal data
race). -/
theorem C5_unsynchronized_counter_race :
    (racyRun 1 60 "203.0.113.7" 0 [true, false, true, false, true, false]
        ((RLPhase.start, RLPhase.start), rlInit)).1 =
      (RLPhase.finished true, RLPhase.finished true) ∧
    (racyRun 1 60 "203.0.113.7" 0 [true, false, true, false, true, false]
        ((RLPhase.start, RLPhase.start), rlInit)).2.requests "203.0.113.7" = 2 :=
  ⟨rfl, rfl⟩

/-- Witness for C7: a concrete step for one key leaves a second key's entry
at its initial values, and the decision agrees across states agreeing at
the key. -/
theorem C7_throttle_isolation_witness :
    ((rateLimitStep 3 60 rlInit "203.0.113.7" 0).2.requests "198.51.100.2" =
        rlInit.requests "198.51.100.2" ∧
      (rateLimitStep 3 60 rlInit "203.0.113.7" 0).2.lastReset "198.51.100.2" =
        rlInit.lastReset "198.51.100.2") ∧
    (rateLimitStep 3 60 rlInit "203.0.113.7" 0).1 =
      (rateLimitStep 3 60 rlInit "203.0.113.7" 0).1 :=
  ⟨(C7_throttle_isolation 3 60 rlInit "203.0.113.7" "198.51.100.2" 0 (by decide)).1,
   ((C7_throttle_isolation 3 60 rlInit "203.0.113.7" "198.51.100.2" 0 (by decide)).2
      rlInit rfl rfl).1⟩
